import Mathlib

/-!
Shallow embedding of `crates/evm/evm/src/inspectors/customizable.rs`:
the `Customizable` inspector handle, the `CustomizableInspector` trait
(modelled as a record of hook functions with the trait's default bodies as
field defaults), the `DefaultInspector` no-op observer, the `EVMDataWrap`
borrow bundle, and the `Inspector<DB>` forwarding implementation.

Rust `&mut` parameters become explicit in/out values: a hook that mutates
`self`, an `EVMDataWrap` and a payload returns the updated copies alongside
its return value.  Rust shared references (`&CallInputs`, `&Address`, ...)
are received but not returned: the borrow checker forbids mutating them, so
the embedding gives the hook no way to produce an updated copy.

Dynamic typing (`Box<dyn CustomizableInspector>` plus `Any` downcasting) is
modelled with a universe of type tags `U` with decidable equality (the role
of `TypeId`), an interpretation `El : U → Type` assigning each tag its
concrete observer state type, and a family `impls : ∀ t, CustomizableInspector
DB U El (El t)` giving each tag its trait implementation (the role of the
vtable).  `as_any`/`as_any_mut` are the Rust-side plumbing for this tag
comparison and are absorbed into the dependent-pair representation.
-/

/-- 160-bit account address (`alloy_primitives::Address`); the adapter only
passes addresses through, so the numeric value is all that matters. -/
abbrev Address := Nat

/-- 256-bit word used as a log topic (`alloy_primitives::B256`). -/
abbrev B256 := Nat

/-- 256-bit unsigned integer (`alloy_primitives::U256`). -/
abbrev U256 := Nat

/-- Byte sequence (`alloy_primitives::Bytes`), modelled as a list of byte
values. -/
abbrev Bytes := List Nat

/-- `Bytes::new()`: the empty byte string. -/
def Bytes.new : Bytes := []

/-- `Bytes::default()`: also the empty byte string. -/
def Bytes.defaultBytes : Bytes := []

/-- `revm::interpreter::Gas` (revm 3.x layout): gas limit, spent gas,
memory expansion gas, refunds, and the running total. `Gas::new(limit)`
zeroes everything but the limit. -/
structure Gas where
  limit : Nat
  used : Nat
  memory : Nat
  refunded : Int
  allUsedGas : Nat
deriving DecidableEq, Repr

/-- `Gas::new(limit)`. -/
def Gas.new (limit : Nat) : Gas := ⟨limit, 0, 0, 0, 0⟩

/-- `revm::interpreter::InstructionResult`, restricted to a representative
set of variants; `Continue` is the "proceed normally / no override"
sentinel the adapter's doc comments refer to. -/
inductive InstructionResult where
  | Continue
  | Stop
  | Return
  | SelfDestruct
  | Revert
  | CallTooDeep
  | OutOfGas
  | InvalidOpcode
  | FatalExternalError
deriving DecidableEq, Repr

/-- The slice of `revm::interpreter::Interpreter` state the observer hooks
see: pending instruction result, program counter, stack, memory, gas. -/
structure Interpreter where
  instructionResult : InstructionResult
  programCounter : Nat
  stack : List U256
  memory : List Nat
  gas : Gas
deriving DecidableEq, Repr

/-- `foundry_evm_core::backend::DatabaseError`, kept abstract as an error
code: the adapter only stores and forwards it through the error slot. -/
structure DatabaseError where
  code : Nat
deriving DecidableEq, Repr

/-- `revm::primitives::Env`, opaque to the adapter. -/
structure Env where
  data : Nat
deriving DecidableEq, Repr

/-- `revm::JournaledState`, opaque to the adapter. -/
structure JournaledState where
  data : Nat
deriving DecidableEq, Repr

/-- `revm::precompile::Precompiles`, opaque to the adapter. -/
structure Precompiles where
  data : Nat
deriving DecidableEq, Repr

/-- `revm::interpreter::CallInputs`: target contract, transfer record,
input data, gas limit, static flag. -/
structure CallInputs where
  contract : Address
  transferSource : Address
  transferTarget : Address
  transferValue : U256
  input : Bytes
  gasLimit : Nat
  isStatic : Bool
deriving DecidableEq, Repr

/-- `revm::primitives::CreateScheme`. -/
inductive CreateScheme where
  | create
  | create2 (salt : U256)
deriving DecidableEq, Repr

/-- `revm::interpreter::CreateInputs`. -/
structure CreateInputs where
  caller : Address
  scheme : CreateScheme
  value : U256
  initCode : Bytes
  gasLimit : Nat
deriving DecidableEq, Repr

/-- `revm::EVMData<'_, DB>`: the host's mutable execution context handed to
each `Inspector` method (env, journaled state, database, error slot,
precompiles).  `DB` is the database state type, mirroring the
`DB: Database<Error = DatabaseError>` generic. -/
structure EVMData (DB : Type) where
  env : Env
  journaledState : JournaledState
  db : DB
  error : Option DatabaseError
  precompiles : Precompiles
deriving DecidableEq, Repr

/-- `EVMDataWrap<'a, 'b>` from the source: the narrowed borrow bundle the
handle constructs for the inner observer, borrowing exactly the env,
journaled state, database, error slot and precompiles of the host's
`EVMData`.  (In the source `env` sits behind `&'a &'b mut Env`, a shared
reborrow, so the observer can read but not rewrite it; the optimism-only
`l1_block_info` field is cfg-gated out and not modelled.) -/
structure EVMDataWrap (DB : Type) where
  env : Env
  journaledState : JournaledState
  db : DB
  error : Option DatabaseError
  precompiles : Precompiles
deriving DecidableEq, Repr

/-- Construction of the `EVMDataWrap` borrow bundle from the host's
`EVMData`, as done at the top of every `Inspector` method of
`Customizable` (source lines 206-214 and the analogous blocks). -/
def wrapOf {DB : Type} (d : EVMData DB) : EVMDataWrap DB :=
  ⟨d.env, d.journaledState, d.db, d.error, d.precompiles⟩

/-- Release of the borrow bundle: since in Rust the wrap fields are `&mut`
borrows into the `EVMData`, every mutation the observer performed through
the wrap is already visible in the host's `EVMData` when the hook returns.
The embedding makes this explicit by writing the (possibly updated) wrap
fields back into the host record. -/
def unwrapInto {DB : Type} (w : EVMDataWrap DB) (d : EVMData DB) : EVMData DB :=
  { d with
    env := w.env
    journaledState := w.journaledState
    db := w.db
    error := w.error
    precompiles := w.precompiles }

/-- `pub struct Customizable { inspector: Box<dyn CustomizableInspector> }`:
the handle owns one observer, stored with its type tag (`U` plays the role
of `TypeId`, `El` maps each tag to its concrete observer state type). -/
structure Customizable (U : Type) (El : U → Type) where
  tag : U
  inspector : El tag

/-- `Customizable::new::<T>(inspector)` (source lines 171-173): wraps a
concrete observer value, erasing its type behind the handle but recording
its tag. -/
def Customizable.new {U : Type} {El : U → Type} (T : U) (inspector : El T) :
    Customizable U El :=
  ⟨T, inspector⟩

/-- `Customizable::get_inspector::<T>()` (source lines 175-178):
`self.inspector.as_any().downcast_ref::<T>()` — compare the stored type tag
with `T`'s and return the typed reference on a match, `None` otherwise. -/
def Customizable.get_inspector {U : Type} {El : U → Type} [DecidableEq U]
    (T : U) (c : Customizable U El) : Option (El T) :=
  if h : c.tag = T then some (h ▸ c.inspector) else none

/-- Modelled from the spec: `Customizable::take::<T>(self)` is described in
spec §4.2 but absent from the source file under `src/`.  Per the spec it
consumes the handle (here: takes it by value and returns no handle, so the
caller cannot use it again), compares the stored type tag with `T`'s, and
on a match returns the exact owned observer value, otherwise returns
nothing and the boxed value is discarded. -/
def Customizable.take {U : Type} {El : U → Type} [DecidableEq U]
    (T : U) (c : Customizable U El) : Option (El T) :=
  if h : c.tag = T then some (h ▸ c.inspector) else none

/-- `pub struct DefaultInspector {}` (source line 182): the built-in no-op
observer; it overrides none of the hook defaults. -/
structure DefaultInspector where
deriving DecidableEq, Repr

/-- The `CustomizableInspector` trait (source lines 38-168) as a record of
hook functions over an observer state type `σ`; each field's default value
is the trait's default method body.  `clone_box` has no default in the
source and none here.  Rust `&mut` parameters are threaded in/out; Rust
shared-reference parameters are inputs only. -/
structure CustomizableInspector (DB : Type) (U : Type) (El : U → Type) (σ : Type) where
  clone_box : σ → Customizable U El
  init_interp : σ → Interpreter → EVMDataWrap DB →
      σ × Interpreter × EVMDataWrap DB := fun s interp d => (s, interp, d)
  step : σ → Interpreter → EVMDataWrap DB →
      σ × Interpreter × EVMDataWrap DB := fun s interp d => (s, interp, d)
  log : σ → EVMDataWrap DB → Address → List B256 → Bytes →
      σ × EVMDataWrap DB := fun s evmData _ _ _ => (s, evmData)
  step_end : σ → Interpreter → EVMDataWrap DB →
      σ × Interpreter × EVMDataWrap DB := fun s interp d => (s, interp, d)
  call : σ → EVMDataWrap DB → CallInputs →
      σ × EVMDataWrap DB × CallInputs × (InstructionResult × Gas × Bytes) :=
    fun s d inputs => (s, d, inputs, (InstructionResult.Continue, Gas.new 0, Bytes.new))
  call_end : σ → EVMDataWrap DB → CallInputs → Gas → InstructionResult → Bytes →
      σ × EVMDataWrap DB × (InstructionResult × Gas × Bytes) :=
    fun s d _ remainingGas ret out => (s, d, (ret, remainingGas, out))
  create : σ → EVMDataWrap DB → CreateInputs →
      σ × EVMDataWrap DB × CreateInputs ×
        (InstructionResult × Option Address × Gas × Bytes) :=
    fun s d inputs =>
      (s, d, inputs, (InstructionResult.Continue, none, Gas.new 0, Bytes.defaultBytes))
  create_end : σ → EVMDataWrap DB → CreateInputs → InstructionResult →
      Option Address → Gas → Bytes →
      σ × EVMDataWrap DB × (InstructionResult × Option Address × Gas × Bytes) :=
    fun s d _ ret address remainingGas out => (s, d, (ret, address, remainingGas, out))
  selfdestruct : σ → Address → Address → U256 → σ := fun s _ _ _ => s

/-- The tag universe used whenever the built-in `DefaultInspector` must be
nameable alongside arbitrary user observer types: one distinguished tag for
`DefaultInspector` plus a tag for each user type in `α`. -/
inductive Tag (α : Type) where
  | defaultTag : Tag α
  | user : α → Tag α
deriving DecidableEq, Repr

/-- Interpretation of `Tag`: the distinguished tag is `DefaultInspector`,
user tags are interpreted by `ElU`. -/
def ElT {α : Type} (ElU : α → Type) : Tag α → Type
  | Tag.defaultTag => DefaultInspector
  | Tag.user a => ElU a

/-- `impl CustomizableInspector for DefaultInspector` (source lines
184-196): all hook defaults, plus `clone_box = Box::new(self.clone())`,
which produces a box of the same concrete type holding a field-by-field
copy (for the empty struct, the value itself). -/
def DefaultInspector.impl (DB : Type) {α : Type} (ElU : α → Type) :
    CustomizableInspector DB (Tag α) (ElT ElU) DefaultInspector :=
  { clone_box := fun s => ⟨Tag.defaultTag, s⟩ }

/-- The implementation family over the `Tag` universe: the distinguished
tag dispatches to `DefaultInspector`'s impl, user tags to the supplied
user implementations. -/
def allImpls (DB : Type) {α : Type} (ElU : α → Type)
    (userImpls : ∀ a : α, CustomizableInspector DB (Tag α) (ElT ElU) (ElU a)) :
    ∀ t : Tag α, CustomizableInspector DB (Tag α) (ElT ElU) (ElT ElU t)
  | Tag.defaultTag => DefaultInspector.impl DB ElU
  | Tag.user a => userImpls a

/-- `impl Default for Customizable` (source lines 198-202): the default
handle boxes a fresh `DefaultInspector`. -/
def Customizable.defaultHandle {α : Type} (ElU : α → Type) :
    Customizable (Tag α) (ElT ElU) :=
  ⟨Tag.defaultTag, ⟨⟩⟩

/-- `impl Clone for Customizable` (source lines 16-20):
`Customizable { inspector: self.inspector.clone_box() }` — delegate to the
stored observer's `clone_box`, which yields a new independently owned box
(in the embedding, a fresh tag/state pair). -/
def Customizable.clone {DB : Type} {U : Type} {El : U → Type}
    (impls : ∀ t : U, CustomizableInspector DB U El (El t))
    (c : Customizable U El) : Customizable U El :=
  (impls c.tag).clone_box c.inspector

/-!
`impl<DB: Database<Error = DatabaseError>> Inspector<DB> for Customizable`
(source lines 204-341).  Each method builds an `EVMDataWrap` over the
host's `EVMData`, forwards to the inner observer with the event payload,
and returns whatever the observer returned; mutations the observer made
through the wrap land back in the host's `EVMData` (here via `unwrapInto`),
and mutations to `&mut` payloads are returned alongside.
-/

/-- `Inspector::initialize_interp` for `Customizable` (source lines
205-216). -/
def Customizable.init_interp {DB : Type} {U : Type} {El : U → Type}
    (impls : ∀ t : U, CustomizableInspector DB U El (El t))
    (c : Customizable U El) (interp : Interpreter) (data : EVMData DB) :
    Customizable U El × Interpreter × EVMData DB :=
  let wrap := wrapOf data
  let r := (impls c.tag).init_interp c.inspector interp wrap
  (⟨c.tag, r.1⟩, r.2.1, unwrapInto r.2.2 data)

/-- `Inspector::step` for `Customizable` (source lines 218-229). -/
def Customizable.step {DB : Type} {U : Type} {El : U → Type}
    (impls : ∀ t : U, CustomizableInspector DB U El (El t))
    (c : Customizable U El) (interp : Interpreter) (data : EVMData DB) :
    Customizable U El × Interpreter × EVMData DB :=
  let wrap := wrapOf data
  let r := (impls c.tag).step c.inspector interp wrap
  (⟨c.tag, r.1⟩, r.2.1, unwrapInto r.2.2 data)

/-- `Inspector::log` for `Customizable` (source lines 231-248).  The
payload (`&Address`, `&[B256]`, `&Bytes`) is passed by shared reference,
so only the handle and the host data can change. -/
def Customizable.log {DB : Type} {U : Type} {El : U → Type}
    (impls : ∀ t : U, CustomizableInspector DB U El (El t))
    (c : Customizable U El) (evmData : EVMData DB)
    (address : Address) (topics : List B256) (data : Bytes) :
    Customizable U El × EVMData DB :=
  let wrap := wrapOf evmData
  let r := (impls c.tag).log c.inspector wrap address topics data
  (⟨c.tag, r.1⟩, unwrapInto r.2 evmData)

/-- `Inspector::step_end` for `Customizable` (source lines 250-261). -/
def Customizable.step_end {DB : Type} {U : Type} {El : U → Type}
    (impls : ∀ t : U, CustomizableInspector DB U El (El t))
    (c : Customizable U El) (interp : Interpreter) (data : EVMData DB) :
    Customizable U El × Interpreter × EVMData DB :=
  let wrap := wrapOf data
  let r := (impls c.tag).step_end c.inspector interp wrap
  (⟨c.tag, r.1⟩, r.2.1, unwrapInto r.2.2 data)

/-- `Inspector::call` for `Customizable` (source lines 263-278): forwards
the mutable `CallInputs` and returns the observer's
`(InstructionResult, Gas, Bytes)` triple unchanged. -/
def Customizable.call {DB : Type} {U : Type} {El : U → Type}
    (impls : ∀ t : U, CustomizableInspector DB U El (El t))
    (c : Customizable U El) (data : EVMData DB) (inputs : CallInputs) :
    Customizable U El × EVMData DB × CallInputs ×
      (InstructionResult × Gas × Bytes) :=
  let wrap := wrapOf data
  let r := (impls c.tag).call c.inspector wrap inputs
  (⟨c.tag, r.1⟩, unwrapInto r.2.1 data, r.2.2.1, r.2.2.2)

/-- `Inspector::call_end` for `Customizable` (source lines 280-298):
forwards `(inputs, remaining_gas, ret, out.clone())` — `Bytes` cloning is
value identity here — and returns the observer's triple. -/
def Customizable.call_end {DB : Type} {U : Type} {El : U → Type}
    (impls : ∀ t : U, CustomizableInspector DB U El (El t))
    (c : Customizable U El) (data : EVMData DB) (inputs : CallInputs)
    (remainingGas : Gas) (ret : InstructionResult) (out : Bytes) :
    Customizable U El × EVMData DB × (InstructionResult × Gas × Bytes) :=
  let wrap := wrapOf data
  let r := (impls c.tag).call_end c.inspector wrap inputs remainingGas ret out
  (⟨c.tag, r.1⟩, unwrapInto r.2.1 data, r.2.2)

/-- `Inspector::create` for `Customizable` (source lines 300-315). -/
def Customizable.create {DB : Type} {U : Type} {El : U → Type}
    (impls : ∀ t : U, CustomizableInspector DB U El (El t))
    (c : Customizable U El) (data : EVMData DB) (inputs : CreateInputs) :
    Customizable U El × EVMData DB × CreateInputs ×
      (InstructionResult × Option Address × Gas × Bytes) :=
  let wrap := wrapOf data
  let r := (impls c.tag).create c.inspector wrap inputs
  (⟨c.tag, r.1⟩, unwrapInto r.2.1 data, r.2.2.1, r.2.2.2)

/-- `Inspector::create_end` for `Customizable` (source lines 317-336). -/
def Customizable.create_end {DB : Type} {U : Type} {El : U → Type}
    (impls : ∀ t : U, CustomizableInspector DB U El (El t))
    (c : Customizable U El) (data : EVMData DB) (inputs : CreateInputs)
    (ret : InstructionResult) (address : Option Address)
    (remainingGas : Gas) (out : Bytes) :
    Customizable U El × EVMData DB ×
      (InstructionResult × Option Address × Gas × Bytes) :=
  let wrap := wrapOf data
  let r := (impls c.tag).create_end c.inspector wrap inputs ret address remainingGas out
  (⟨c.tag, r.1⟩, unwrapInto r.2.1 data, r.2.2)

/-- `Inspector::selfdestruct` for `Customizable` (source lines 338-340):
pure notification, no `EVMData` involved. -/
def Customizable.selfdestruct {DB : Type} {U : Type} {El : U → Type}
    (impls : ∀ t : U, CustomizableInspector DB U El (El t))
    (c : Customizable U El) (contract : Address) (target : Address)
    (value : U256) : Customizable U El :=
  ⟨c.tag, (impls c.tag).selfdestruct c.inspector contract target value⟩

/-- One hook invocation with its event payload, used to talk about
"mutation of a handle through its hooks" uniformly. -/
inductive HookCall (DB : Type) where
  | initInterpHook (interp : Interpreter)
  | stepHook (interp : Interpreter)
  | logHook (address : Address) (topics : List B256) (data : Bytes)
  | stepEndHook (interp : Interpreter)
  | callHook (inputs : CallInputs)
  | callEndHook (inputs : CallInputs) (remainingGas : Gas)
      (ret : InstructionResult) (out : Bytes)
  | createHook (inputs : CreateInputs)
  | createEndHook (inputs : CreateInputs) (ret : InstructionResult)
      (address : Option Address) (remainingGas : Gas) (out : Bytes)
  | selfdestructHook (contract : Address) (target : Address) (value : U256)

/-- Run one hook invocation against a handle and the host's `EVMData`,
keeping the updated handle and host data (return values and payload copies
are dropped: only the retained mutable state matters for aliasing
questions). -/
def runHook {DB : Type} {U : Type} {El : U → Type}
    (impls : ∀ t : U, CustomizableInspector DB U El (El t)) :
    HookCall DB → Customizable U El → EVMData DB →
      Customizable U El × EVMData DB
  | HookCall.initInterpHook interp, c, d =>
      let r := Customizable.init_interp impls c interp d
      (r.1, r.2.2)
  | HookCall.stepHook interp, c, d =>
      let r := Customizable.step impls c interp d
      (r.1, r.2.2)
  | HookCall.logHook address topics bytes, c, d =>
      Customizable.log impls c d address topics bytes
  | HookCall.stepEndHook interp, c, d =>
      let r := Customizable.step_end impls c interp d
      (r.1, r.2.2)
  | HookCall.callHook inputs, c, d =>
      let r := Customizable.call impls c d inputs
      (r.1, r.2.1)
  | HookCall.callEndHook inputs g ret out, c, d =>
      let r := Customizable.call_end impls c d inputs g ret out
      (r.1, r.2.1)
  | HookCall.createHook inputs, c, d =>
      let r := Customizable.create impls c d inputs
      (r.1, r.2.1)
  | HookCall.createEndHook inputs ret address g out, c, d =>
      let r := Customizable.create_end impls c d inputs ret address g out
      (r.1, r.2.1)
  | HookCall.selfdestructHook contract target value, c, d =>
      (Customizable.selfdestruct impls c contract target value, d)

/-- A world of two coexisting handles (an original and its clone), as when
an execution context is forked. -/
def mutateFirst {DB : Type} {U : Type} {El : U → Type}
    (impls : ∀ t : U, CustomizableInspector DB U El (El t)) (hc : HookCall DB)
    (p : Customizable U El × Customizable U El) (d : EVMData DB) :
    (Customizable U El × Customizable U El) × EVMData DB :=
  let r := runHook impls hc p.1 d
  ((r.1, p.2), r.2)

/-- Run a hook against the second handle of a two-handle world, leaving
the first untouched. -/
def mutateSecond {DB : Type} {U : Type} {El : U → Type}
    (impls : ∀ t : U, CustomizableInspector DB U El (El t)) (hc : HookCall DB)
    (p : Customizable U El × Customizable U El) (d : EVMData DB) :
    (Customizable U El × Customizable U El) × EVMData DB :=
  let r := runHook impls hc p.2 d
  ((p.1, r.1), r.2)

/-- A log record as the interpreter owns it: address, topics, data. -/
structure LogRecord where
  address : Address
  topics : List B256
  data : Bytes
deriving DecidableEq, Repr

/-- The host's emission of a log record: the hook receives the record's
fields by shared reference (`&Address`, `&[B256]`, `&Bytes` in the
source), so the record stays with the host and only the handle and the
execution data can change. -/
def hostEmitLog {DB : Type} {U : Type} {El : U → Type}
    (impls : ∀ t : U, CustomizableInspector DB U El (El t))
    (c : Customizable U El) (d : EVMData DB) (record : LogRecord) :
    Customizable U El × EVMData DB × LogRecord :=
  let r := Customizable.log impls c d record.address record.topics record.data
  (r.1, r.2, record)

/-- The optional-override reading of the before-call hook's return triple
(spec §4.1, §9 and the source doc comment on `CustomizableInspector::call`):
a result status other than `Continue` is an override carrying the full
`(result, gas, return data)` outcome; `Continue` encodes "no override,
proceed normally". -/
def callOverride (r : InstructionResult × Gas × Bytes) :
    Option (InstructionResult × Gas × Bytes) :=
  if r.1 = InstructionResult.Continue then none else some r

/-- Modelled from the spec: the host interpreter's dispatch of one
contract call around the before-call hook.  The dispatch loop itself is an
external collaborator (spec §1, §4.1) and not under `src/`; per the spec,
the host first invokes the hook, then, if the hook produced an override
(result status other than `Continue`), uses that override as the final
call outcome without executing the call, and otherwise executes the call
normally (`normal`) on the possibly-mutated call request. -/
def hostDispatchCall {DB : Type} {U : Type} {El : U → Type}
    (impls : ∀ t : U, CustomizableInspector DB U El (El t))
    (c : Customizable U El) (d : EVMData DB) (inputs : CallInputs)
    (normal : EVMData DB → CallInputs →
      EVMData DB × (InstructionResult × Gas × Bytes)) :
    Customizable U El × EVMData DB × (InstructionResult × Gas × Bytes) :=
  let r := Customizable.call impls c d inputs
  if r.2.2.2.1 = InstructionResult.Continue then
    let n := normal r.2.1 r.2.2.1
    (r.1, n.1, n.2)
  else
    (r.1, r.2.1, r.2.2.2)

/-!
Spec-side formulation of the forwarding contract (spec §4.2, "Acts as the
Observer-capability implementation from the host's point of view"): each
hook is "(a) constructing a fresh ExecutionView borrowing from the host's
internal mutable execution context, and (b) forwarding the call and its
event payload to the inner Observer, returning whatever the inner Observer
returns".  These definitions follow that sentence; the refinement theorem
compares them with the source-derived `Customizable.*` methods above.
-/

/-- Following the spec's words: the fresh ExecutionView borrowing the
host's env, journaled state, database, error slot and precompiles. -/
def SpecForward.view {DB : Type} (d : EVMData DB) : EVMDataWrap DB :=
  { env := d.env
    journaledState := d.journaledState
    db := d.db
    error := d.error
    precompiles := d.precompiles }

/-- Following the spec's words: when the hook returns, the borrows are
released and the observer's mutations are visible in the host context. -/
def SpecForward.release {DB : Type} (w : EVMDataWrap DB) (d : EVMData DB) :
    EVMData DB :=
  { d with
    env := w.env
    journaledState := w.journaledState
    db := w.db
    error := w.error
    precompiles := w.precompiles }

/-- Spec-side `initialize_interp` forwarding. -/
def SpecForward.init_interp {DB : Type} {U : Type} {El : U → Type}
    (impls : ∀ t : U, CustomizableInspector DB U El (El t))
    (c : Customizable U El) (interp : Interpreter) (data : EVMData DB) :
    Customizable U El × Interpreter × EVMData DB :=
  match (impls c.tag).init_interp c.inspector interp (SpecForward.view data) with
  | (s1, interp1, w1) => (⟨c.tag, s1⟩, interp1, SpecForward.release w1 data)

/-- Spec-side `step` forwarding. -/
def SpecForward.step {DB : Type} {U : Type} {El : U → Type}
    (impls : ∀ t : U, CustomizableInspector DB U El (El t))
    (c : Customizable U El) (interp : Interpreter) (data : EVMData DB) :
    Customizable U El × Interpreter × EVMData DB :=
  match (impls c.tag).step c.inspector interp (SpecForward.view data) with
  | (s1, interp1, w1) => (⟨c.tag, s1⟩, interp1, SpecForward.release w1 data)

/-- Spec-side `log` forwarding. -/
def SpecForward.log {DB : Type} {U : Type} {El : U → Type}
    (impls : ∀ t : U, CustomizableInspector DB U El (El t))
    (c : Customizable U El) (evmData : EVMData DB)
    (address : Address) (topics : List B256) (data : Bytes) :
    Customizable U El × EVMData DB :=
  match (impls c.tag).log c.inspector (SpecForward.view evmData) address topics data with
  | (s1, w1) => (⟨c.tag, s1⟩, SpecForward.release w1 evmData)

/-- Spec-side `step_end` forwarding. -/
def SpecForward.step_end {DB : Type} {U : Type} {El : U → Type}
    (impls : ∀ t : U, CustomizableInspector DB U El (El t))
    (c : Customizable U El) (interp : Interpreter) (data : EVMData DB) :
    Customizable U El × Interpreter × EVMData DB :=
  match (impls c.tag).step_end c.inspector interp (SpecForward.view data) with
  | (s1, interp1, w1) => (⟨c.tag, s1⟩, interp1, SpecForward.release w1 data)

/-- Spec-side `call` forwarding. -/
def SpecForward.call {DB : Type} {U : Type} {El : U → Type}
    (impls : ∀ t : U, CustomizableInspector DB U El (El t))
    (c : Customizable U El) (data : EVMData DB) (inputs : CallInputs) :
    Customizable U El × EVMData DB × CallInputs ×
      (InstructionResult × Gas × Bytes) :=
  match (impls c.tag).call c.inspector (SpecForward.view data) inputs with
  | (s1, w1, inputs1, outcome) =>
      (⟨c.tag, s1⟩, SpecForward.release w1 data, inputs1, outcome)

/-- Spec-side `call_end` forwarding. -/
def SpecForward.call_end {DB : Type} {U : Type} {El : U → Type}
    (impls : ∀ t : U, CustomizableInspector DB U El (El t))
    (c : Customizable U El) (data : EVMData DB) (inputs : CallInputs)
    (remainingGas : Gas) (ret : InstructionResult) (out : Bytes) :
    Customizable U El × EVMData DB × (InstructionResult × Gas × Bytes) :=
  match (impls c.tag).call_end c.inspector (SpecForward.view data) inputs remainingGas ret out with
  | (s1, w1, outcome) => (⟨c.tag, s1⟩, SpecForward.release w1 data, outcome)

/-- Spec-side `create` forwarding. -/
def SpecForward.create {DB : Type} {U : Type} {El : U → Type}
    (impls : ∀ t : U, CustomizableInspector DB U El (El t))
    (c : Customizable U El) (data : EVMData DB) (inputs : CreateInputs) :
    Customizable U El × EVMData DB × CreateInputs ×
      (InstructionResult × Option Address × Gas × Bytes) :=
  match (impls c.tag).create c.inspector (SpecForward.view data) inputs with
  | (s1, w1, inputs1, outcome) =>
      (⟨c.tag, s1⟩, SpecForward.release w1 data, inputs1, outcome)

/-- Spec-side `create_end` forwarding. -/
def SpecForward.create_end {DB : Type} {U : Type} {El : U → Type}
    (impls : ∀ t : U, CustomizableInspector DB U El (El t))
    (c : Customizable U El) (data : EVMData DB) (inputs : CreateInputs)
    (ret : InstructionResult) (address : Option Address)
    (remainingGas : Gas) (out : Bytes) :
    Customizable U El × EVMData DB ×
      (InstructionResult × Option Address × Gas × Bytes) :=
  match (impls c.tag).create_end c.inspector (SpecForward.view data) inputs ret address remainingGas out with
  | (s1, w1, outcome) => (⟨c.tag, s1⟩, SpecForward.release w1 data, outcome)

/-- Spec-side `selfdestruct` forwarding (no execution view is involved:
the payload is three scalars passed by value). -/
def SpecForward.selfdestruct {DB : Type} {U : Type} {El : U → Type}
    (impls : ∀ t : U, CustomizableInspector DB U El (El t))
    (c : Customizable U El) (contract : Address) (target : Address)
    (value : U256) : Customizable U El :=
  ⟨c.tag, (impls c.tag).selfdestruct c.inspector contract target value⟩

/-- A read of the handle via `get_inspector` as the borrow checker sees
it: `get_inspector` takes `&self`, so the caller keeps the handle; the
pair returns both the result of the read and the (unchanged) handle. -/
def Customizable.borrowGet {U : Type} {El : U → Type} [DecidableEq U]
    (T : U) (c : Customizable U El) : Option (El T) × Customizable U El :=
  (Customizable.get_inspector T c, c)

/-- `n` successive typed reads through `borrowGet`, threading the handle
from each read into the next; returns the list of results and the handle
left over. -/
def Customizable.repeatGet {U : Type} {El : U → Type} [DecidableEq U]
    (T : U) : Nat → Customizable U El → List (Option (El T)) × Customizable U El
  | 0, c => ([], c)
  | n + 1, c =>
      let r := Customizable.borrowGet T c
      let rest := Customizable.repeatGet T n r.2
      (r.1 :: rest.1, rest.2)

/-- An example user observer for concrete instantiations: it counts the
log records it sees (the log-counting scenario of spec §8). -/
structure CountLogs where
  count : Nat
deriving DecidableEq, Repr

/-- The concrete tag universe used by the witness instances: the
distinguished `DefaultInspector` tag plus one user tag for `CountLogs`. -/
abbrev WTag : Type := Tag Unit

/-- Interpretation of `WTag`. -/
def WEl : WTag → Type := ElT (fun _ => CountLogs)

/-- `CustomizableInspector` implementation for `CountLogs`: overrides
only the log hook (increments the counter); `clone_box` boxes a state
copy of the same concrete type, as a derived `Clone` would. -/
def CountLogs.impl (DB : Type) : CustomizableInspector DB WTag WEl CountLogs :=
  { clone_box := fun s => ⟨Tag.user (), s⟩
    log := fun s d _ _ _ => (⟨s.count + 1⟩, d) }

/-- The implementation family over the concrete universe. -/
def wImpls (DB : Type) : ∀ t : WTag, CustomizableInspector DB WTag WEl (WEl t) :=
  allImpls DB (fun _ => CountLogs) (fun _ => CountLogs.impl DB)

/-- A concrete handle holding a `CountLogs` observer with count 3. -/
def cW : Customizable WTag WEl := Customizable.new (Tag.user ()) (⟨3⟩ : CountLogs)

/-- A concrete host execution context over `DB := Nat`. -/
def dW : EVMData Nat := ⟨⟨0⟩, ⟨1⟩, 2, none, ⟨4⟩⟩

/-- A concrete hook invocation: a log record emission. -/
def hcW : HookCall Nat := HookCall.logHook 7 [11] [1, 2]

/-- C1: typed retrieval round-trip — for every observer value `o` of
concrete type (tag) `T`, wrapping it with `Customizable::new` and calling
`get_inspector` at `T` returns `some` of a value with exactly the
observable state `o` had before wrapping. -/
theorem get_inspector_new_roundtrip {U : Type} {El : U → Type} [DecidableEq U]
    (T : U) (o : El T) :
    Customizable.get_inspector T (Customizable.new T o) = some o := by
  unfold Customizable.get_inspector Customizable.new
  exact dif_pos rfl

/-- C2: the before-call hook's protocol, with its sentinel triple read as
an optional override (`Continue` = no override): when the hook produces an
override, the host's final call outcome is exactly that override and
normal dispatch is bypassed (the override branch does not consult
`normal`); when it produces none, the host dispatches normally on the call
request exactly as the hook left it (in-place mutations honored). -/
theorem before_call_override_protocol {DB : Type} {U : Type} {El : U → Type}
    (impls : ∀ t : U, CustomizableInspector DB U El (El t))
    (c : Customizable U El) (d : EVMData DB) (inputs : CallInputs)
    (normal : EVMData DB → CallInputs →
      EVMData DB × (InstructionResult × Gas × Bytes)) :
    hostDispatchCall impls c d inputs normal =
      (let r := Customizable.call impls c d inputs
       Option.elim (callOverride r.2.2.2)
         (let n := normal r.2.1 r.2.2.1
          (r.1, n.1, n.2))
         (fun ov => (r.1, r.2.1, ov))) := by
  unfold hostDispatchCall callOverride
  by_cases h : (Customizable.call impls c d inputs).2.2.2.1 = InstructionResult.Continue
  · simp [h]
  · simp [h]

/-- C3: consuming typed extraction — `take` at a non-matching type returns
none (the boxed value is discarded, no abort is possible: the function is
total), `take` at the stored type returns exactly the owned observer
value; `take` receives the handle by value and returns no handle, so the
caller has nothing left to retrieve from. -/
theorem take_typed_extraction {U : Type} {El : U → Type} [DecidableEq U]
    (S T : U) (s : El S) (h : S ≠ T) :
    Customizable.take T (Customizable.new S s) = none ∧
    Customizable.take S (Customizable.new S s) = some s := by
  constructor
  · unfold Customizable.take Customizable.new
    exact dif_neg h
  · unfold Customizable.take Customizable.new
    exact dif_pos rfl

/-- Witness for C3 at a concrete handle: a stored `CountLogs` observer,
extraction attempted at `DefaultInspector`'s tag and then at the stored
tag. -/
theorem take_typed_extraction_witness :
    Customizable.take Tag.defaultTag cW = none ∧
    Customizable.take (Tag.user ()) cW = some ⟨3⟩ := by
  unfold cW
  exact @take_typed_extraction WTag WEl _ (Tag.user ()) Tag.defaultTag ⟨3⟩ (by decide)

/-- C4: a default-constructed handle (storing the built-in
`DefaultInspector`) is a total no-op: every hook leaves the interpreter
state, the host execution data (including the error slot) and every event
payload unchanged; the before-call/before-create hooks return the
"continue normally" sentinel, and `call_end`/`create_end` return exactly
the outcome tuple they were given. -/
theorem default_handle_noop (DB : Type) {α : Type} (ElU : α → Type)
    (userImpls : ∀ a : α, CustomizableInspector DB (Tag α) (ElT ElU) (ElU a))
    (interp : Interpreter) (d : EVMData DB) (inputs : CallInputs)
    (cinputs : CreateInputs) (remainingGas : Gas) (ret : InstructionResult)
    (out : Bytes) (address : Address) (caddr : Option Address)
    (topics : List B256) (bytes : Bytes) (target : Address) (value : U256) :
    Customizable.init_interp (allImpls DB ElU userImpls)
        (Customizable.defaultHandle ElU) interp d =
      (Customizable.defaultHandle ElU, interp, d) ∧
    Customizable.step (allImpls DB ElU userImpls)
        (Customizable.defaultHandle ElU) interp d =
      (Customizable.defaultHandle ElU, interp, d) ∧
    Customizable.log (allImpls DB ElU userImpls)
        (Customizable.defaultHandle ElU) d address topics bytes =
      (Customizable.defaultHandle ElU, d) ∧
    Customizable.step_end (allImpls DB ElU userImpls)
        (Customizable.defaultHandle ElU) interp d =
      (Customizable.defaultHandle ElU, interp, d) ∧
    Customizable.call (allImpls DB ElU userImpls)
        (Customizable.defaultHandle ElU) d inputs =
      (Customizable.defaultHandle ElU, d, inputs,
        (InstructionResult.Continue, Gas.new 0, Bytes.new)) ∧
    Customizable.call_end (allImpls DB ElU userImpls)
        (Customizable.defaultHandle ElU) d inputs remainingGas ret out =
      (Customizable.defaultHandle ElU, d, (ret, remainingGas, out)) ∧
    Customizable.create (allImpls DB ElU userImpls)
        (Customizable.defaultHandle ElU) d cinputs =
      (Customizable.defaultHandle ElU, d, cinputs,
        (InstructionResult.Continue, none, Gas.new 0, Bytes.defaultBytes)) ∧
    Customizable.create_end (allImpls DB ElU userImpls)
        (Customizable.defaultHandle ElU) d cinputs ret caddr remainingGas out =
      (Customizable.defaultHandle ElU, d, (ret, caddr, remainingGas, out)) ∧
    Customizable.selfdestruct (allImpls DB ElU userImpls)
        (Customizable.defaultHandle ElU) address target value =
      Customizable.defaultHandle ElU :=
  ⟨rfl, rfl, rfl, rfl, rfl, rfl, rfl, rfl, rfl⟩

/-- C5: forwarding refinement — on every hook of the host-facing
`Inspector` contract, the handle's behavior (updated handle, updated host
data, updated payload, return value) is exactly "make the ExecutionView,
run the inner observer on it, return what the inner observer returned",
as formulated by the `SpecForward` definitions taken from the spec's
words. -/
theorem forwarding_refines_inner_observer {DB : Type} {U : Type} {El : U → Type}
    (impls : ∀ t : U, CustomizableInspector DB U El (El t))
    (c : Customizable U El) (interp : Interpreter) (d : EVMData DB)
    (inputs : CallInputs) (cinputs : CreateInputs) (remainingGas : Gas)
    (ret : InstructionResult) (out : Bytes) (address : Address)
    (caddr : Option Address) (topics : List B256) (bytes : Bytes)
    (target : Address) (value : U256) :
    Customizable.init_interp impls c interp d =
      SpecForward.init_interp impls c interp d ∧
    Customizable.step impls c interp d = SpecForward.step impls c interp d ∧
    Customizable.log impls c d address topics bytes =
      SpecForward.log impls c d address topics bytes ∧
    Customizable.step_end impls c interp d =
      SpecForward.step_end impls c interp d ∧
    Customizable.call impls c d inputs = SpecForward.call impls c d inputs ∧
    Customizable.call_end impls c d inputs remainingGas ret out =
      SpecForward.call_end impls c d inputs remainingGas ret out ∧
    Customizable.create impls c d cinputs =
      SpecForward.create impls c d cinputs ∧
    Customizable.create_end impls c d cinputs ret caddr remainingGas out =
      SpecForward.create_end impls c d cinputs ret caddr remainingGas out ∧
    Customizable.selfdestruct impls c address target value =
      SpecForward.selfdestruct impls c address target value :=
  ⟨rfl, rfl, rfl, rfl, rfl, rfl, rfl, rfl, rfl⟩

/-- C6: type-mismatch on typed retrieval is an absence — for a handle
storing an observer of type (tag) `S` and any requested tag `T ≠ S`,
`get_inspector` returns `none` (totally, no abort), the handle itself is
untouched by the read (`borrowGet` hands the identical handle back), and
the stored observer is still retrievable unchanged at its own tag. -/
theorem get_inspector_mismatch_absent {U : Type} {El : U → Type} [DecidableEq U]
    (S T : U) (s : El S) (h : S ≠ T) :
    Customizable.get_inspector T (Customizable.new S s) = none ∧
    Customizable.borrowGet T (Customizable.new S s) =
      (none, Customizable.new S s) ∧
    Customizable.get_inspector S (Customizable.new S s) = some s := by
  have h1 : Customizable.get_inspector T (Customizable.new S s) = none := by
    unfold Customizable.get_inspector Customizable.new
    exact dif_neg h
  refine ⟨h1, ?_, ?_⟩
  · unfold Customizable.borrowGet
    rw [h1]
  · unfold Customizable.get_inspector Customizable.new
    exact dif_pos rfl

/-- Witness for C6: a handle storing `CountLogs` with count 3, queried at
the `DefaultInspector` tag (mismatch) and at its own tag. -/
theorem get_inspector_mismatch_absent_witness :
    Customizable.get_inspector Tag.defaultTag cW = none ∧
    Customizable.borrowGet Tag.defaultTag cW = (none, cW) ∧
    Customizable.get_inspector (Tag.user ()) cW = some ⟨3⟩ := by
  unfold cW
  exact @get_inspector_mismatch_absent WTag WEl _ (Tag.user ()) Tag.defaultTag
    ⟨3⟩ (by decide)

/-- C7: clone independence — when the stored observer's `clone_box`
duplicates its state (the clone contract of spec §4.2, met e.g. by
`DefaultInspector` and by any derived `Clone`), the cloned handle's
retrievable observer state equals the original's; and in a two-handle
world, running any hook on one handle leaves the other handle's
retrievable observer state exactly as it was (no aliasing between the
original and the clone). -/
theorem clone_independence {DB : Type} {U : Type} {El : U → Type}
    [DecidableEq U]
    (impls : ∀ t : U, CustomizableInspector DB U El (El t))
    (c : Customizable U El)
    (hlaw : (impls c.tag).clone_box c.inspector = ⟨c.tag, c.inspector⟩) :
    Customizable.clone impls c = c ∧
    ∀ (T : U) (hc : HookCall DB) (d : EVMData DB),
      Customizable.get_inspector T
          ((mutateSecond impls hc (c, Customizable.clone impls c) d).1).1 =
        Customizable.get_inspector T c ∧
      Customizable.get_inspector T
          ((mutateFirst impls hc (c, Customizable.clone impls c) d).1).2 =
        Customizable.get_inspector T (Customizable.clone impls c) := by
  constructor
  · show (impls c.tag).clone_box c.inspector = c
    rw [hlaw]
  · intro T hc d
    exact ⟨rfl, rfl⟩

/-- Witness for C7: the concrete `CountLogs` handle, whose `clone_box`
duplicates the counter state, mutated through a log-hook invocation. -/
theorem clone_independence_witness :
    Customizable.clone (wImpls Nat) cW = cW ∧
    (Customizable.get_inspector (Tag.user ())
        ((mutateSecond (wImpls Nat) hcW (cW, Customizable.clone (wImpls Nat) cW) dW).1).1 =
      Customizable.get_inspector (Tag.user ()) cW ∧
    Customizable.get_inspector (Tag.user ())
        ((mutateFirst (wImpls Nat) hcW (cW, Customizable.clone (wImpls Nat) cW) dW).1).2 =
      Customizable.get_inspector (Tag.user ()) (Customizable.clone (wImpls Nat) cW)) :=
  ⟨(clone_independence (wImpls Nat) cW rfl).1,
   (clone_independence (wImpls Nat) cW rfl).2 (Tag.user ()) hcW dW⟩

/-- C8: the log hook's payload is read-only — the hook receives the log
record's address, topics and data by shared reference, so emitting a
record through any observer hands the very same record back to the host;
only the handle and the execution view can have changed. -/
theorem log_payload_read_only {DB : Type} {U : Type} {El : U → Type}
    (impls : ∀ t : U, CustomizableInspector DB U El (El t))
    (c : Customizable U El) (d : EVMData DB) (lrec : LogRecord) :
    (hostEmitLog impls c d lrec).2.2 = lrec ∧
    hostEmitLog impls c d lrec =
      ((Customizable.log impls c d lrec.address lrec.topics lrec.data).1,
       (Customizable.log impls c d lrec.address lrec.topics lrec.data).2,
       lrec) :=
  ⟨rfl, rfl⟩

/-- C9: a default-constructed handle stores an observer of concrete type
`DefaultInspector`: typed retrieval at the `DefaultInspector` tag
succeeds, and at any other tag returns `none`. -/
theorem default_handle_type_identity {α : Type} [DecidableEq α]
    (ElU : α → Type) :
    Customizable.get_inspector Tag.defaultTag (Customizable.defaultHandle ElU) =
      some ⟨⟩ ∧
    ∀ t : Tag α, t ≠ Tag.defaultTag →
      Customizable.get_inspector t (Customizable.defaultHandle ElU) = none := by
  constructor
  · unfold Customizable.get_inspector Customizable.defaultHandle
    exact dif_pos rfl
  · intro t ht
    unfold Customizable.get_inspector Customizable.defaultHandle
    exact dif_neg fun hh => ht hh.symm

/-- Witness for C9 at the concrete universe: success at the
`DefaultInspector` tag, failure at the `CountLogs` tag. -/
theorem default_handle_type_identity_witness :
    Customizable.get_inspector Tag.defaultTag
        (Customizable.defaultHandle (fun _ : Unit => CountLogs)) = some ⟨⟩ ∧
    Customizable.get_inspector (Tag.user ())
        (Customizable.defaultHandle (fun _ : Unit => CountLogs)) = none :=
  ⟨(default_handle_type_identity (fun _ : Unit => CountLogs)).1,
   (default_handle_type_identity (fun _ : Unit => CountLogs)).2
      (Tag.user ()) (by decide)⟩

/-- C10: typed read-back is non-destructive and repeatable — any number
of successive `get_inspector` reads (threaded through the immutable
borrow, `borrowGet`) all yield the same result, and the handle left over
afterwards is the very handle started with, fully usable for hooks and
further retrieval. -/
theorem repeat_get_pure {U : Type} {El : U → Type} [DecidableEq U]
    (T : U) (n : Nat) (c : Customizable U El) :
    (Customizable.repeatGet T n c).1 =
      List.replicate n (Customizable.get_inspector T c) ∧
    (Customizable.repeatGet T n c).2 = c := by
  induction n with
  | zero => exact ⟨rfl, rfl⟩
  | succ n ih =>
    constructor
    · simp only [Customizable.repeatGet, Customizable.borrowGet,
        List.replicate, List.cons.injEq, true_and]
      exact ih.1
    · simp only [Customizable.repeatGet, Customizable.borrowGet]
      exact ih.2
